import Mathlib

/-
Verification development for the `webscrapper` Flask application (src/app.py).
The Python source is shallowly embedded: each Python function of interest
becomes a Lean definition over explicit data (parsed documents, a file-system
record, an entropy source for the cipher), and the claims about the program
are settled as theorems about those definitions.
-/

set_option maxRecDepth 4096

/-! ## String helpers

Python string operations used by the source, modelled structurally on
`List Char` (wrapped into `String` at the boundaries) so that everything
reduces inside the kernel. -/

/-- Decides whether the list `p` is an initial segment of `l`
(the core of Python substring containment). -/
def prefixCheck : List Char → List Char → Bool
  | [], _ => true
  | _ :: _, [] => false
  | a :: as, b :: bs => a == b && prefixCheck as bs

/-- Decides whether `p` occurs contiguously inside `l`, as Python `p in l`
does for strings. -/
def containsSub (p : List Char) : List Char → Bool
  | [] => prefixCheck p []
  | c :: cs => prefixCheck p (c :: cs) || containsSub p cs

/-- Python `needle in haystack` on strings. -/
def strContains (haystack needle : String) : Bool :=
  containsSub needle.data haystack.data

/-- Python `s.startswith(pat)`. -/
def strStarts (s pat : String) : Bool :=
  prefixCheck pat.data s.data

/-- Python `s.lower()`, modelled per character with `Char.toLower`
(ASCII case folding; all lexicon words below are ASCII). -/
def lowerStr (s : String) : String :=
  String.mk (s.data.map Char.toLower)

/-- Characters removed by Python `s.strip()` (modelled for the common
ASCII whitespace). -/
def isSpaceChar (c : Char) : Bool :=
  c == ' ' || c == '\t' || c == '\n' || c == '\r'

/-- Python `s.strip()`. -/
def trimStr (s : String) : String :=
  String.mk (((s.data.dropWhile isSpaceChar).reverse.dropWhile isSpaceChar).reverse)

/-- The pattern removed from image paths in `scrape_books`: the Python
replace call deletes the five characters `../..`. -/
def dotDotPat : List Char := ['.', '.', '/', '.', '.']

/-- Fuel-indexed worker for `stripRel`; the fuel is the list length, which
bounds the number of steps, so the recursion is structural. -/
def stripRelAux : Nat → List Char → List Char
  | _, [] => []
  | 0, l => l
  | fuel + 1, c :: cs =>
    if prefixCheck dotDotPat (c :: cs) then stripRelAux fuel (cs.drop 4)
    else c :: stripRelAux fuel cs

/-- Python string replace of `../..` by the empty string: delete every
left-to-right, non-overlapping occurrence of `../..`. -/
def stripRel (l : List Char) : List Char :=
  stripRelAux l.length l

/-- Python split on the slash character, as a list of segments. -/
def splitSlash : List Char → List (List Char)
  | [] => [[]]
  | c :: cs =>
    if c == '/' then [] :: splitSlash cs
    else
      match splitSlash cs with
      | [] => [[c]]
      | h :: t => (c :: h) :: t

/-- Python join of segments with the slash character. -/
def joinSlash : List (List Char) → List Char
  | [] => []
  | [x] => x
  | x :: xs => x ++ '/' :: joinSlash xs

/-- Modelled from the spec: `urllib.parse.urljoin` (library code, not part of
src/) restricted to the shapes this program produces — an absolute URL passes
through, a root-relative or relative path is resolved against the
scheme-and-host base URL. -/
def urljoin (base url : String) : String :=
  if url = "" then base
  else if strStarts url "http://" || strStarts url "https://" then url
  else if strStarts url "/" then base ++ url
  else base ++ "/" ++ url

/-- The host (authority) component of an absolute URL: the third
slash-separated segment, as in `https://host/...`. -/
def urlHost (u : String) : String :=
  match (splitSlash u.data).drop 2 with
  | [] => ""
  | h :: _ => String.mk h

/-! ## Sentiment analysis (`analyze_with_ai`, src/app.py lines 128-149) -/

/-- The dictionary returned by `analyze_with_ai`. -/
structure AiAnalysis where
  sentiment : String
  score : Int
  positive_words : Nat
  negative_words : Nat
  analysis : String
deriving DecidableEq

/-- Positive lexicon of `analyze_with_ai`. -/
def positiveWords : List String := ["great", "excellent", "good", "awesome"]

/-- Negative lexicon of `analyze_with_ai`. -/
def negativeWords : List String := ["poor", "bad", "terrible", "awful"]

/-- Number of positive lexicon words contained in the lowercased content
(Python `sum(1 for word in positive_words if word in content_lower)`). -/
def positiveScore (content : String) : Nat :=
  positiveWords.countP (fun w => strContains (lowerStr content) w)

/-- Number of negative lexicon words contained in the lowercased content. -/
def negativeScore (content : String) : Nat :=
  negativeWords.countP (fun w => strContains (lowerStr content) w)

/-- Embedding of `analyze_with_ai`: lower-case the content, count lexicon
words by substring containment, score is the signed difference, sentiment is
the sign of the score. The Python body cannot raise, so the `except` branch
returning `None` is unreachable and the model is total. -/
def analyze_with_ai (content : String) : AiAnalysis :=
  let ps := positiveScore content
  let ns := negativeScore content
  let score : Int := (ps : Int) - (ns : Int)
  { sentiment := if score > 0 then "positive" else if score < 0 then "negative" else "neutral"
    score := score
    positive_words := ps
    negative_words := ns
    analysis := "Basic sentiment analysis completed" }

example : (analyze_with_ai "a Great and GOOD read").sentiment = "positive" := by decide
example : (analyze_with_ai "bad but good").score = 0 := by decide

/-! ## Field encryption (`encrypt_data` / `decrypt_data`, src/app.py 15-17, 118-126)

The source delegates to `cryptography.fernet.Fernet`, library code that is not
part of src/. Following the spec, it is modelled as an authenticated symmetric
scheme in which every encryption call draws a fresh random IV that is stored
inside the token, so that decryption needs only the key, and distinct IVs give
distinct tokens. The concrete byte transform is a keyed rotation of Unicode
scalar values; what the claims use is only that the transform is invertible
given key and IV, and that the token embeds the IV. -/

/-- Size of the space of Unicode scalar values (the alphabet of token
characters, and the IV space of the model). -/
def fernetM : Nat := 1112064

/-- Bijection from characters to `Fin fernetM`, as a bare `Nat`: scalar
values below the surrogate block keep their value, those above slide down. -/
def charIdx (c : Char) : Nat :=
  if c.toNat < 0xd800 then c.toNat else c.toNat - 0x800

/-- Inverse of `charIdx` on `n < fernetM`. -/
def idxChar (n : Nat) : Char :=
  if n < 0xd800 then Char.ofNat n else Char.ofNat (n + 0x800)

/-- Modelled from the spec: `Fernet.encrypt` (library code, not part of src/).
The token records the IV in its first character; every plaintext character is
rotated by the key-and-IV-dependent shift. -/
def fernetEncrypt (key iv : Nat) (s : String) : String :=
  String.mk (idxChar (iv % fernetM) ::
    s.data.map (fun c => idxChar ((charIdx c + key + iv) % fernetM)))

/-- Modelled from the spec: `Fernet.decrypt` (library code, not part of src/).
Reads the IV back out of the token and undoes the rotation. -/
def fernetDecrypt (key : Nat) (token : String) : String :=
  match token.data with
  | [] => ""
  | ivc :: rest =>
    let iv := charIdx ivc
    String.mk (rest.map (fun c =>
      idxChar ((charIdx c + (fernetM - (key + iv) % fernetM)) % fernetM)))

/-- Embedding of `encrypt_data`: encode the string and encrypt it with the
process-wide cipher. The key and the per-call randomness (IV) are explicit
parameters of the model. -/
def encrypt_data (key iv : Nat) (data : String) : String :=
  fernetEncrypt key iv data

/-- Embedding of `decrypt_data`. -/
def decrypt_data (key : Nat) (encrypted_data : String) : String :=
  fernetDecrypt key encrypted_data

example : decrypt_data 12345 (encrypt_data 12345 777 "Tipping the Velvet") = "Tipping the Velvet" := by decide

/-! ## The record extractor (`scrape_books`, src/app.py lines 37-84)

A fetched document is embedded as the result of the BeautifulSoup queries the
source performs: the list of catalogue item nodes, the product-gallery marker,
and the product container. Each node records exactly the data the selectors
read, with `none` standing for an absent node or attribute (in Python the
subsequent subscript or method call raises, which the source catches). -/

/-- One `article.product_pod` node of a catalogue page, as seen through the
selectors of `scrape_books`. -/
structure Article where
  /-- The title attribute of the link under the h3 heading; `none` when the
  link or the attribute is missing. -/
  titleAttr : Option String
  /-- Stripped text of the price node, when present. -/
  priceText : Option String
  /-- The class token list of the star-rating node, when that node exists. -/
  starClasses : Option (List String)
  /-- Stripped text of the in-stock node, when present. -/
  instockText : Option String
  /-- The src attribute of the first image descendant, when present. -/
  imgSrc : Option String
deriving DecidableEq

/-- The `.product_main` container of a product detail page. -/
structure Product where
  /-- Stripped text of the h1 heading, when present. -/
  h1Text : Option String
  /-- Stripped text of the price node, when present. -/
  priceText : Option String
  /-- The class token list of the star-rating node, when that node exists. -/
  starClasses : Option (List String)
  /-- Stripped text of the in-stock node, when present. -/
  instockText : Option String
deriving DecidableEq

/-- A parsed document, as seen through the three top-level queries of
`scrape_books`. -/
structure Soup where
  /-- All `article.product_pod` nodes, in document order. -/
  articles : List Article
  /-- Whether the document has a product-gallery marker node. -/
  productGallery : Bool
  /-- The `.product_main` container, when present. -/
  productMain : Option Product
  /-- The src attribute of the image inside the product gallery. -/
  galleryImgSrc : Option String
deriving DecidableEq

/-- A book record as built by the source: the five extracted fields, plus the
fields that later stages add to the same dictionary in place (persistence
metadata and the optional AI analysis). -/
structure OutRecord where
  title : String
  price : String
  rating : String
  availability : String
  image_url : String
  scrape_timestamp : Option String := none
  source_url : Option String := none
  ai_analysis : Option AiAnalysis := none
deriving DecidableEq

/-- Extraction of one catalogue item (the body of the for loop of
`scrape_books`). Any missing node, missing attribute or too-short class list
raises in Python; the broad except turns that into skipping the item, hence
the `Option`. The availability fallback is the only tolerated absence. -/
def extractArticle (base_url : String) (a : Article) : Option OutRecord :=
  match a.titleAttr, a.priceText, a.starClasses, a.imgSrc with
  | some t, some p, some cls, some src =>
    match cls[1]? with
    | some tok =>
      some { title := t
             price := p
             rating := tok ++ " stars"
             availability := match a.instockText with
               | some s => s
               | none => "Out of stock"
             image_url := urljoin base_url (String.mk (stripRel src.data)) }
    | none => none
  | _, _, _, _ => none

/-- The items of a catalogue page that extract successfully: all selector
results present and a second class token on the star-rating node. -/
def wellFormedArticle (a : Article) : Bool :=
  a.titleAttr.isSome && a.priceText.isSome &&
    (match a.starClasses with
     | some cls => cls[1]?.isSome
     | none => false) &&
    a.imgSrc.isSome

/-- Extraction from a product detail page (the single-product branch of
`scrape_books`); a failure anywhere in the branch is caught and yields no
record. -/
def extractProduct (soup : Soup) (base_url : String) : Option OutRecord :=
  match soup.productMain with
  | none => none
  | some prod =>
    match prod.h1Text, prod.priceText, prod.starClasses, soup.galleryImgSrc with
    | some t, some p, some cls, some src =>
      match cls[1]? with
      | some tok =>
        some { title := t
               price := p
               rating := tok ++ " stars"
               availability := match prod.instockText with
                 | some s => s
                 | none => "Out of stock"
               image_url := urljoin base_url (String.mk (stripRel src.data)) }
      | none => none
    | _, _, _, _ => none

/-- Embedding of `scrape_books`: catalogue branch when at least one listing
item node exists, otherwise the single-product branch when the gallery marker
exists, otherwise no records. -/
def scrape_books (soup : Soup) (base_url : String) : List OutRecord :=
  if soup.articles.isEmpty then
    if soup.productGallery then (extractProduct soup base_url).toList
    else []
  else
    soup.articles.filterMap (extractArticle base_url)

/-! ## Persistence (`save_to_csv`, src/app.py lines 86-116)

The file system is embedded as the state the function touches: the cumulative
CSV (existence flag and rows) and the backup folder (named snapshots). The two
fault-injection flags stand for the environment making the respective write
raise, which the except block of the source converts into a `False` return. -/

/-- The file-system state visible to `save_to_csv`, plus fault-injection
flags describing which of the two writes of the current call would fail. -/
structure Fs where
  mainExists : Bool
  mainRows : List OutRecord
  backups : List (String × List OutRecord)
  mainWriteFails : Bool
  backupWriteFails : Bool
deriving DecidableEq

/-- The cumulative store name from src/app.py line 20. -/
def CSV_FILENAME : String := "scraped_data.csv"

/-- The backup folder name from src/app.py line 21. -/
def CSV_BACKUP_FOLDER : String := "backups"

/-- The snapshot name built at src/app.py line 110 from a timestamp. -/
def backupFileName (timestamp : String) : String :=
  CSV_BACKUP_FOLDER ++ "/scraped_data_" ++ timestamp ++ ".csv"

/-- The in-place mutation of one record at src/app.py lines 90-92: attach the
scrape timestamp and the source URL. -/
def stampRecord (ts source_url : String) (b : OutRecord) : OutRecord :=
  { b with scrape_timestamp := some ts, source_url := some source_url }

/-- Embedding of `save_to_csv`. The records are stamped in place first; the
function returns the mutated list (Python mutates the very list the caller
holds), the boolean outcome, and the new file-system state. A failing main
write aborts before any state change; a failing backup write leaves the main
append done. A backup name collision overwrites the older snapshot. -/
def save_to_csv (data : List OutRecord) (source_url ts backupTs : String)
    (fs : Fs) : List OutRecord × Bool × Fs :=
  let stamped := data.map (stampRecord ts source_url)
  if fs.mainWriteFails then (stamped, false, fs)
  else
    let fs1 : Fs :=
      { fs with mainExists := true
                mainRows := if fs.mainExists then fs.mainRows ++ stamped else stamped }
    if fs.backupWriteFails then (stamped, false, fs1)
    else
      let name := backupFileName backupTs
      (stamped, true,
        { fs1 with backups := fs1.backups.filter (fun p => p.1 != name) ++ [(name, stamped)] })

/-! ## The request orchestrator (`scrape`, src/app.py lines 155-256)

The handler is embedded as a pure function of the decoded request body, a
fetch oracle standing for `requests.get` on the network, the file-system
state, the clock readings used for the timestamp and the snapshot name, the
elapsed-time string, and the process-wide encryption key together with the
IV stream drawn by successive encryption calls. -/

/-- The recognized feature flags; absent flags default to off, unrecognized
flags never reach the model. -/
structure Features where
  speed : Bool := false
  ai : Bool := false
  security : Bool := false
deriving DecidableEq

/-- A decoded JSON body that passed the presence check for the url key. -/
structure ReqBody where
  url : String
  features : Features
deriving DecidableEq

/-- Outcome of the network fetch: a parsed document, or a transport or HTTP
failure message (`requests.RequestException`). -/
inductive FetchOutcome where
  | ok (soup : Soup)
  | err (msg : String)

/-- The success envelope assembled at src/app.py lines 220-234. The two
enabled markers model the keys added at lines 240 and 247. -/
structure ScrapeResult where
  books : List OutRecord
  source : String
  count : Nat
  processing_time : String
  features : Features
  saved_to_csv : Bool
  filename : Option String
  ai_enabled : Bool
  encryption_enabled : Bool
deriving DecidableEq

/-- The distinguishable responses of the `/scrape` route. -/
inductive ScrapeResponse where
  | badRequest (msg : String)
  | unsupported (msg : String) (supported_sites : List String)
  | fetchError (msg suggestion : String)
  | notFound (msg suggestion : String)
  | ok (r : ScrapeResult)
  | serverError (msg : String)
deriving DecidableEq

/-- The HTTP status code attached to each response shape. -/
def statusCode : ScrapeResponse → Nat
  | .badRequest _ => 400
  | .unsupported _ _ => 400
  | .fetchError _ _ => 400
  | .notFound _ _ => 404
  | .ok _ => 200
  | .serverError _ => 500

/-- The record list of a success response (empty for error responses). -/
def respBooks : ScrapeResponse → List OutRecord
  | .ok r => r.books
  | _ => []

/-- The persistence flag of a success response. -/
def respSaved : ScrapeResponse → Option Bool
  | .ok r => some r.saved_to_csv
  | _ => none

/-- The shortcut table from src/app.py lines 28-35. -/
def POPULAR_SITES : List (String × String) :=
  [("WBB", "https://books.toscrape.com/catalogue/category/books/travel_2/index.html"),
   ("Deep 6GB", "https://books.toscrape.com/catalogue/category/books/mystery_3/index.html"),
   ("Devi 0.9GB", "https://books.toscrape.com/catalogue/category/books/historical-fiction_4/index.html"),
   ("Design", "https://books.toscrape.com/catalogue/category/books/art_25/index.html"),
   ("E-commerce", "https://books.toscrape.com/catalogue/category/books/default_15/index.html"),
   ("News", "https://books.toscrape.com/catalogue/category/books/nonfiction_13/index.html")]

/-- The shortcut names (Python dict keys, in insertion order). -/
def siteKeys : List String := POPULAR_SITES.map Prod.fst

/-- The shortcut targets (Python dict values). -/
def siteVals : List String := POPULAR_SITES.map Prod.snd

/-- The shortcut resolution at src/app.py lines 169-172: a known key maps to
its target, a known target stays itself, anything else passes through. -/
def shortcutResolve (url : String) : String :=
  if siteKeys.contains url then ((POPULAR_SITES.lookup url).getD url)
  else if siteVals.contains url then url
  else url

/-- The scheme prepending at src/app.py lines 177-178. -/
def withScheme (url : String) : String :=
  if strStarts url "http://" || strStarts url "https://" then url
  else "https://" ++ url

/-- The full URL normalization the handler applies to the raw url field
before the domain check: strip, shortcut-resolve, prepend a scheme. -/
def resolveUrl (raw : String) : String :=
  withScheme (shortcutResolve (trimStr raw))

/-- The base URL computed at src/app.py line 202: the first three
slash-separated segments rejoined. -/
def computeBaseUrl (url : String) : String :=
  String.mk (joinSlash ((splitSlash url.data).take 3))

/-- The AI post-processing loop at src/app.py lines 237-239: every record
gains an analysis of its title concatenated (through one space) with the
description field, which extracted records never have, hence the empty
string. -/
def aiStep (books : List OutRecord) : List OutRecord :=
  books.map (fun b => { b with ai_analysis := some (analyze_with_ai (b.title ++ " " ++ "")) })

/-- The encryption post-processing loop at src/app.py lines 243-246: the
title and price of every record are overwritten with their ciphertexts, each
encryption call drawing the next IV from the stream (two calls per record,
title first). -/
def securityStep (key : Nat) (ivs : Nat → Nat) (books : List OutRecord) : List OutRecord :=
  books.enum.map (fun p =>
    { p.2 with title := encrypt_data key (ivs (2 * p.1)) p.2.title
               price := encrypt_data key (ivs (2 * p.1 + 1)) p.2.price })

/-- The part of the handler after the fetch: parse, extract, the no-data
check, persistence, post-processing, and envelope assembly. -/
def afterFetch (feats : Features) (url : String) (outcome : FetchOutcome)
    (fs : Fs) (ts backupTs elapsed : String) (key : Nat) (ivs : Nat → Nat) :
    ScrapeResponse × Fs :=
  match outcome with
  | .err e =>
    (.fetchError ("Failed to fetch URL: " ++ e) "Check the URL and try again", fs)
  | .ok soup =>
    let base_url := computeBaseUrl url
    let books := scrape_books soup base_url
    if books.isEmpty then
      (.notFound "No book data found on this page" "Try a books.toscrape.com category page", fs)
    else
      let saved := save_to_csv books url ts backupTs fs
      let stamped := saved.1
      let save_success := saved.2.1
      let fs2 := saved.2.2
      let books1 := if feats.ai then aiStep stamped else stamped
      let books2 := if feats.security then securityStep key ivs books1 else books1
      (.ok { books := books2
             source := url
             count := books.length
             processing_time := elapsed
             features := feats
             saved_to_csv := save_success
             filename := if save_success then some CSV_FILENAME else none
             ai_enabled := feats.ai
             encryption_enabled := feats.security }, fs2)

/-- Embedding of the `/scrape` handler. A `none` body stands for a request
whose JSON is absent or lacks the url key. The fetch oracle is consulted only
where the source calls `requests.get`. -/
def scrape (body : Option ReqBody) (fetch : String → FetchOutcome) (fs : Fs)
    (ts backupTs elapsed : String) (key : Nat) (ivs : Nat → Nat) :
    ScrapeResponse × Fs :=
  match body with
  | none => (.badRequest "Invalid request format", fs)
  | some data =>
    let url1 := shortcutResolve (trimStr data.url)
    if url1 = "" then (.badRequest "No URL provided", fs)
    else
      let url2 := withScheme url1
      if strContains url2 "books.toscrape.com" = false then
        (.unsupported "This demo only supports books.toscrape.com URLs" siteKeys, fs)
      else
        afterFetch data.features url2 (fetch url2) fs ts backupTs elapsed key ivs

/-! ## Sample inputs used by witnesses and counterexamples -/

/-- A fully well-formed catalogue item. -/
def okArticle : Article :=
  { titleAttr := some "A Light in the Attic"
    priceText := some "£51.77"
    starClasses := some ["star-rating", "Three"]
    instockText := some "In stock"
    imgSrc := some "../../media/cache/fe/72/fe72f0532301ec28892ae79a629a293c.jpg" }

/-- A malformed catalogue item: the price node is missing, so its subscript
raises in Python and the item is skipped. -/
def badArticle : Article :=
  { titleAttr := some "Broken card"
    priceText := none
    starClasses := some ["star-rating", "One"]
    instockText := none
    imgSrc := some "x.jpg" }

/-- A catalogue page holding one well-formed and one malformed item. -/
def catalogueSoup : Soup :=
  { articles := [okArticle, badArticle], productGallery := false
    productMain := none, galleryImgSrc := none }

/-- A well-formed catalogue item whose link carries an empty title
attribute. -/
def emptyTitleArticle : Article :=
  { titleAttr := some ""
    priceText := some "£10.00"
    starClasses := some ["star-rating", "Five"]
    instockText := some "In stock"
    imgSrc := some "a.jpg" }

/-- A document with the empty-titled item as its only catalogue entry. -/
def emptyTitleSoup : Soup :=
  { articles := [emptyTitleArticle], productGallery := false
    productMain := none, galleryImgSrc := none }

/-- A document matching neither page shape: no catalogue items and no
product-gallery marker. -/
def shapelessSoup : Soup :=
  { articles := [], productGallery := false, productMain := none, galleryImgSrc := none }

/-- The record extracted from `okArticle` against the site base URL. -/
def lightRecord : OutRecord :=
  { title := "A Light in the Attic"
    price := "£51.77"
    rating := "Three stars"
    availability := "In stock"
    image_url := "https://books.toscrape.com/media/cache/fe/72/fe72f0532301ec28892ae79a629a293c.jpg" }

/-- A pristine file-system state with no injected faults. -/
def cleanFs : Fs :=
  { mainExists := false, mainRows := [], backups := []
    mainWriteFails := false, backupWriteFails := false }

/-- A file-system state in which the write to the cumulative store fails. -/
def brokenFs : Fs :=
  { mainExists := false, mainRows := [], backups := []
    mainWriteFails := true, backupWriteFails := false }

/-! ## Sentiment lemmas -/

/-- C5: `analyze_with_ai` is a pure function of its input text whose
sentiment is exactly the sign of the positive-minus-negative substring
counts; in particular a text containing exactly two positive-lexicon words
and no negative-lexicon word scores 2 with sentiment positive. -/
theorem analyze_with_ai_sentiment_spec (content : String) :
    ((analyze_with_ai content).sentiment = "positive"
      ↔ 0 < (analyze_with_ai content).score)
    ∧ ((analyze_with_ai content).sentiment = "negative"
      ↔ (analyze_with_ai content).score < 0)
    ∧ ((analyze_with_ai content).sentiment = "neutral"
      ↔ (analyze_with_ai content).score = 0)
    ∧ (analyze_with_ai content).score
        = (positiveScore content : Int) - (negativeScore content : Int)
    ∧ (positiveScore content = 2 → negativeScore content = 0 →
        (analyze_with_ai content).sentiment = "positive"
        ∧ (analyze_with_ai content).score = 2) := by
  by_cases h1 : (0 : Int) < (positiveScore content : Int) - (negativeScore content : Int)
  · refine ⟨?_, ?_, ?_, ?_, ?_⟩
    · simp [analyze_with_ai, h1]
    · simp [analyze_with_ai, h1]
      omega
    · simp [analyze_with_ai, h1]
      omega
    · simp [analyze_with_ai]
    · intro hp hn
      constructor
      · simp [analyze_with_ai, h1]
      · simp [analyze_with_ai, hp, hn]
  · by_cases h2 : (positiveScore content : Int) - (negativeScore content : Int) < 0
    · refine ⟨?_, ?_, ?_, ?_, ?_⟩
      · simp [analyze_with_ai, h1, h2]
      · simp [analyze_with_ai, h1, h2]
      · simp [analyze_with_ai, h1, h2]
        omega
      · simp [analyze_with_ai]
      · intro hp hn
        rw [hp, hn] at h1
        simp at h1
    · refine ⟨?_, ?_, ?_, ?_, ?_⟩
      · simp [analyze_with_ai, h1, h2]
      · simp [analyze_with_ai, h1, h2]
      · simp [analyze_with_ai, h1, h2]
        omega
      · simp [analyze_with_ai]
      · intro hp hn
        rw [hp, hn] at h1
        simp at h1

/-- Witness for C5: a concrete text holding exactly the positive words
great and good and no negative word is scored positive with 2. -/
theorem analyze_with_ai_sentiment_spec_witness :
    (analyze_with_ai "a great and good read").sentiment = "positive"
    ∧ (analyze_with_ai "a great and good read").score = 2 :=
  (analyze_with_ai_sentiment_spec "a great and good read").2.2.2.2 (by decide) (by decide)

/-! ## Cipher lemmas -/

/-- The validity bounds of a character scalar value, in `Nat` form. -/
theorem char_toNat_valid (c : Char) :
    c.toNat < 0xd800 ∨ (0xdfff < c.toNat ∧ c.toNat < 0x110000) := by
  rcases c.valid with h | ⟨h1, h2⟩
  · left; exact h
  · right; exact ⟨h1, h2⟩

/-- Packing a valid scalar value into a character keeps its value. -/
theorem charOfNat_toNat {n : Nat} (h : n.isValidChar) : (Char.ofNat n).toNat = n := by
  rw [Char.ofNat, dif_pos h]
  rfl

/-- The character index is always below the model modulus. -/
theorem charIdx_lt (c : Char) : charIdx c < fernetM := by
  unfold charIdx fernetM
  rcases char_toNat_valid c with h | ⟨h1, h2⟩
  · rw [if_pos h]; omega
  · rw [if_neg (by omega)]; omega

/-- Reading the index back from an encoded character. -/
theorem charIdx_idxChar {n : Nat} (h : n < fernetM) : charIdx (idxChar n) = n := by
  unfold idxChar
  by_cases hn : n < 0xd800
  · rw [if_pos hn]
    unfold charIdx
    rw [charOfNat_toNat (Or.inl hn), if_pos hn]
  · rw [if_neg hn]
    have hv : (n + 0x800).isValidChar := by
      unfold fernetM at h
      exact Or.inr ⟨by omega, by omega⟩
    unfold charIdx
    rw [charOfNat_toNat hv, if_neg (by omega)]
    omega

/-- Re-encoding the index of a character gives the character back. -/
theorem idxChar_charIdx (c : Char) : idxChar (charIdx c) = c := by
  rcases char_toNat_valid c with h | ⟨h1, h2⟩
  · have hb : charIdx c = c.toNat := by unfold charIdx; rw [if_pos h]
    rw [hb]
    unfold idxChar
    rw [if_pos h, Char.ofNat_toNat]
  · have hb : charIdx c = c.toNat - 0x800 := by unfold charIdx; rw [if_neg (by omega)]
    rw [hb]
    unfold idxChar
    rw [if_neg (by omega), show c.toNat - 0x800 + 0x800 = c.toNat by omega, Char.ofNat_toNat]

/-- The modular rotation of the cipher model cancels. -/
theorem rot_cancel (a key iv : Nat) (ha : a < fernetM) :
    ((a + key + iv) % fernetM + (fernetM - (key + iv % fernetM) % fernetM)) % fernetM = a := by
  unfold fernetM at *
  omega

/-- One character survives an encrypt-then-decrypt round trip. -/
theorem dec_enc_char (key iv : Nat) (c : Char) :
    idxChar ((charIdx (idxChar ((charIdx c + key + iv) % fernetM))
      + (fernetM - (key + iv % fernetM) % fernetM)) % fernetM) = c := by
  rw [charIdx_idxChar (Nat.mod_lt _ (by decide)), rot_cancel _ _ _ (charIdx_lt c)]
  exact idxChar_charIdx c

/-- Mapping an inverse pair of functions over a list is the identity. -/
theorem map_map_id {α : Type} {f g : α → α} (h : ∀ a, g (f a) = a) :
    ∀ l : List α, (l.map f).map g = l
  | [] => rfl
  | a :: l => by simp only [List.map_cons, h a, map_map_id h l]

/-- The model cipher round-trips on every string and key. -/
theorem fernet_roundtrip (key iv : Nat) (s : String) :
    fernetDecrypt key (fernetEncrypt key iv s) = s := by
  have h1 : fernetDecrypt key (fernetEncrypt key iv s)
      = String.mk ((s.data.map (fun c => idxChar ((charIdx c + key + iv) % fernetM))).map
          (fun c => idxChar ((charIdx c
            + (fernetM - (key + charIdx (idxChar (iv % fernetM))) % fernetM)) % fernetM))) := rfl
  rw [h1, charIdx_idxChar (Nat.mod_lt _ (by decide)), map_map_id (dec_enc_char key iv)]

/-- Distinct IV draws give distinct tokens for the same plaintext. -/
theorem fernet_iv_distinct (key iv1 iv2 : Nat) (s : String)
    (h : iv1 % fernetM ≠ iv2 % fernetM) :
    fernetEncrypt key iv1 s ≠ fernetEncrypt key iv2 s := by
  intro he
  rw [fernetEncrypt, fernetEncrypt] at he
  injection he with hdata
  injection hdata with hhead htail
  apply h
  have h2 := congrArg charIdx hhead
  rwa [charIdx_idxChar (Nat.mod_lt _ (by decide)),
    charIdx_idxChar (Nat.mod_lt _ (by decide))] at h2

/-- C4: decrypting an encryption of any string under the same process
lifetime key returns the string exactly, and two encryption calls whose
random IV draws differ produce different ciphertexts (non-deterministic
encryption). -/
theorem encrypt_decrypt_round_trip (key iv1 iv2 : Nat) (s : String) :
    decrypt_data key (encrypt_data key iv1 s) = s
    ∧ (iv1 % fernetM ≠ iv2 % fernetM →
        encrypt_data key iv1 s ≠ encrypt_data key iv2 s) :=
  ⟨fernet_roundtrip key iv1 s, fun h => fernet_iv_distinct key iv1 iv2 s h⟩

/-- Witness for C4 at a concrete key, IV pair and price-like plaintext. -/
theorem encrypt_decrypt_round_trip_witness :
    decrypt_data 97 (encrypt_data 97 5 "£51.77") = "£51.77"
    ∧ encrypt_data 97 5 "£51.77" ≠ encrypt_data 97 9 "£51.77" :=
  ⟨(encrypt_decrypt_round_trip 97 5 9 "£51.77").1,
   (encrypt_decrypt_round_trip 97 5 9 "£51.77").2 (by decide)⟩

/-! ## Extractor lemmas -/

/-- An item extracts successfully exactly when it is well formed. -/
theorem extractArticle_isSome (base : String) (a : Article) :
    (extractArticle base a).isSome = wellFormedArticle a := by
  rcases a with ⟨t, p, st, ik, im⟩
  rcases t with _ | t <;> rcases p with _ | p <;> rcases st with _ | cls <;>
    rcases im with _ | im <;> simp [extractArticle, wellFormedArticle]
  rcases h : cls[1]? with _ | tok <;> simp [h]

/-- A malformed item is dropped. -/
theorem extractArticle_eq_none (base : String) (a : Article)
    (hw : wellFormedArticle a = false) : extractArticle base a = none := by
  have h := extractArticle_isSome base a
  rw [hw] at h
  rcases hx : extractArticle base a with _ | r
  · rfl
  · rw [hx] at h; simp at h

/-- The number of surviving records of a catalogue batch equals the number of
well-formed items. -/
theorem length_filterMap_extract (base : String) :
    ∀ l : List Article,
      (l.filterMap (extractArticle base)).length = l.countP wellFormedArticle := by
  intro l
  induction l with
  | nil => rfl
  | cons a t ih =>
    have hs := extractArticle_isSome base a
    rcases hfa : extractArticle base a with _ | r <;> rw [hfa] at hs <;>
      simp [List.filterMap_cons, hfa, List.countP_cons, ← hs, ih]

/-- Every record built by the catalogue branch carries a rating of the shape
star-token followed by the word stars. -/
theorem extractArticle_rating (base : String) (a : Article) (r : OutRecord)
    (h : extractArticle base a = some r) : ∃ tok, r.rating = tok ++ " stars" := by
  rcases a with ⟨t, p, st, ik, im⟩
  rcases t with _ | t <;> rcases p with _ | p <;> rcases st with _ | cls <;>
    rcases im with _ | im <;> simp [extractArticle] at h
  rcases htok : cls[1]? with _ | tok <;> rw [htok] at h <;> simp at h
  exact ⟨tok, by rw [← h]⟩

/-- Every record built by the single-product branch carries a rating of the
same shape. -/
theorem extractProduct_rating (soup : Soup) (base : String) (r : OutRecord)
    (h : extractProduct soup base = some r) : ∃ tok, r.rating = tok ++ " stars" := by
  rcases soup with ⟨arts, gal, _ | prod, gsrc⟩ <;> simp [extractProduct] at h
  rcases prod with ⟨t, p, st, ik⟩
  rcases t with _ | t <;> rcases p with _ | p <;> rcases st with _ | cls <;>
    rcases gsrc with _ | gsrc <;> simp at h
  rcases htok : cls[1]? with _ | tok <;> rw [htok] at h <;> simp at h
  exact ⟨tok, by rw [← h]⟩

/-- C2: on a catalogue page (at least one listing-item node) with any mix of
well-formed and malformed items, `scrape_books` returns exactly one record
per well-formed item, and deleting a malformed item from the page does not
change the result at all — a single-item failure never removes or alters any
other item record. -/
theorem scrape_books_catalogue_robust (soup : Soup) (base : String)
    (h : soup.articles ≠ []) :
    (scrape_books soup base).length = soup.articles.countP wellFormedArticle
    ∧ (∀ l1 bad l2, soup.articles = l1 ++ bad :: l2 → wellFormedArticle bad = false →
        l1 ++ l2 ≠ [] →
        scrape_books soup base = scrape_books { soup with articles := l1 ++ l2 } base) := by
  have hne : soup.articles.isEmpty = false := by
    rcases hx : soup.articles with _ | _
    · exact absurd hx h
    · rfl
  constructor
  · simp [scrape_books, hne, length_filterMap_extract]
  · intro l1 bad l2 hsplit hbad hne2
    have hne3 : (l1 ++ l2).isEmpty = false := by
      rcases hx : l1 ++ l2 with _ | _
      · exact absurd hx hne2
      · rfl
    have hne4 : (l1 ++ bad :: l2).isEmpty = false := by rw [← hsplit]; exact hne
    simp only [scrape_books, hne3, hne4, Bool.false_eq_true, if_false, hsplit]
    rw [List.filterMap_append, List.filterMap_append,
      List.filterMap_cons_none (extractArticle_eq_none base bad hbad)]

/-- Witness for C2 on a concrete page with one well-formed and one malformed
item: exactly one record is produced, and dropping the malformed item leaves
the result unchanged. -/
theorem scrape_books_catalogue_robust_witness :
    (scrape_books catalogueSoup "https://books.toscrape.com").length
        = catalogueSoup.articles.countP wellFormedArticle
    ∧ scrape_books catalogueSoup "https://books.toscrape.com"
        = scrape_books { catalogueSoup with articles := [okArticle] } "https://books.toscrape.com" :=
  ⟨(scrape_books_catalogue_robust catalogueSoup "https://books.toscrape.com" (by decide)).1,
   (scrape_books_catalogue_robust catalogueSoup "https://books.toscrape.com" (by decide)).2
     [okArticle] badArticle [] (by decide) (by decide) (by decide)⟩

/-- C3 counterexample: a catalogue item whose link has an empty title
attribute extracts successfully, so `scrape_books` returns a record whose
title is the empty string — the claim that every returned record has a
non-empty title fails on this input. -/
theorem scrape_books_empty_title_cex :
    (scrape_books emptyTitleSoup "https://books.toscrape.com").map OutRecord.title = [""] := by
  decide

/-- C3 as amended: every record returned by `scrape_books` originates whole
from one source item whose required nodes were all present — all five fields
are populated in a single construction (never partially filled), the rating
always has the star-token shape, and no persistence or feature field is set
yet; the title, however, is copied verbatim from the source and may be
empty. -/
theorem scrape_books_records_fully_populated (soup : Soup) (base : String)
    (r : OutRecord) (hr : r ∈ scrape_books soup base) :
    (∃ tok, r.rating = tok ++ " stars")
    ∧ r.scrape_timestamp = none ∧ r.source_url = none ∧ r.ai_analysis = none
    ∧ ((∃ a, a ∈ soup.articles ∧ wellFormedArticle a = true ∧ extractArticle base a = some r)
        ∨ (soup.articles = [] ∧ soup.productGallery = true ∧ extractProduct soup base = some r)) := by
  rcases hx : soup.articles.isEmpty with _ | _
  · rw [scrape_books, hx] at hr
    simp only [Bool.false_eq_true, if_false] at hr
    rcases List.mem_filterMap.mp hr with ⟨a, ha, hea⟩
    have hmeta : r.scrape_timestamp = none ∧ r.source_url = none ∧ r.ai_analysis = none := by
      rcases a with ⟨t, p, st, ik, im⟩
      rcases t with _ | t <;> rcases p with _ | p <;> rcases st with _ | cls <;>
        rcases im with _ | im <;> simp [extractArticle] at hea
      rcases htok : cls[1]? with _ | tok <;> rw [htok] at hea <;> simp at hea
      rw [← hea]
      exact ⟨rfl, rfl, rfl⟩
    refine ⟨extractArticle_rating base a r hea, hmeta.1, hmeta.2.1, hmeta.2.2, Or.inl ⟨a, ha, ?_, hea⟩⟩
    have hs := extractArticle_isSome base a
    rw [hea] at hs
    exact hs.symm
  · rw [scrape_books, hx] at hr
    simp only [if_true] at hr
    have hnil : soup.articles = [] := List.isEmpty_iff.mp hx
    rcases hg : soup.productGallery with _ | _
    · rw [hg] at hr; simp at hr
    · rw [hg] at hr
      rw [if_pos rfl] at hr
      rcases he : extractProduct soup base with _ | r2 <;> rw [he] at hr <;> simp at hr
      rw [← hr] at he
      have hmeta : r.scrape_timestamp = none ∧ r.source_url = none ∧ r.ai_analysis = none := by
        rcases soup with ⟨arts, gal, _ | prod, gsrc⟩ <;> simp [extractProduct] at he
        rcases prod with ⟨t, p, st, ik⟩
        rcases t with _ | t <;> rcases p with _ | p <;> rcases st with _ | cls <;>
          rcases gsrc with _ | gsrc <;> simp at he
        rcases htok : cls[1]? with _ | tok <;> rw [htok] at he <;> simp at he
        rw [← he]
        exact ⟨rfl, rfl, rfl⟩
      exact ⟨extractProduct_rating soup base r he, hmeta.1, hmeta.2.1, hmeta.2.2,
        Or.inr ⟨hnil, rfl, by rw [hr]⟩⟩


/-- Witness for the amended C3 at a concrete catalogue page. -/
theorem scrape_books_records_fully_populated_witness :
    (∃ tok, (OutRecord.rating ⟨"A Light in the Attic", "£51.77", "Three stars", "In stock",
        "https://books.toscrape.com/media/cache/fe/72/fe72f0532301ec28892ae79a629a293c.jpg",
        none, none, none⟩) = tok ++ " stars")
    ∧ (OutRecord.scrape_timestamp ⟨"A Light in the Attic", "£51.77", "Three stars", "In stock",
        "https://books.toscrape.com/media/cache/fe/72/fe72f0532301ec28892ae79a629a293c.jpg",
        none, none, none⟩) = none := by
  have h := scrape_books_records_fully_populated catalogueSoup "https://books.toscrape.com"
    ⟨"A Light in the Attic", "£51.77", "Three stars", "In stock",
     "https://books.toscrape.com/media/cache/fe/72/fe72f0532301ec28892ae79a629a293c.jpg",
     none, none, none⟩ (by decide)
  exact ⟨h.1, h.2.1⟩


/-! ## Orchestrator lemmas -/

/-- A request whose resolved URL is nonempty and passes the domain substring
check proceeds to the fetch stage. -/
theorem scrape_valid_request (d : ReqBody) (fetch : String → FetchOutcome) (fs : Fs)
    (ts bts el : String) (key : Nat) (ivs : Nat → Nat)
    (h1 : shortcutResolve (trimStr d.url) ≠ "")
    (h2 : strContains (resolveUrl d.url) "books.toscrape.com" = true) :
    scrape (some d) fetch fs ts bts el key ivs
      = afterFetch d.features (resolveUrl d.url) (fetch (resolveUrl d.url))
          fs ts bts el key ivs := by
  simp only [resolveUrl] at h2 ⊢
  simp only [scrape]
  rw [if_neg h1, if_neg (by rw [h2]; simp)]

/-- C1 counterexample: the input URL resolves to a URL whose host is
evil.com, not the supported domain, yet the handler does not reject it —
the code tests substring containment over the whole URL, so the request
reaches the network fetch and returns the translated fetch failure. -/
theorem scrape_domain_check_cex :
    urlHost (resolveUrl "evil.com/books.toscrape.com") ≠ "books.toscrape.com"
    ∧ (scrape (some { url := "evil.com/books.toscrape.com", features := {} })
        (fun _ => FetchOutcome.err "connection refused")
        cleanFs "T" "B" "0.10 seconds" 0 (fun _ => 0)).1
      = ScrapeResponse.fetchError "Failed to fetch URL: connection refused"
          "Check the URL and try again" := by
  constructor
  · decide
  · decide

/-- C1 as amended: the handler rejects — with the shortcut-name list, and
without consulting the fetch oracle — exactly those requests whose resolved
URL does not contain the substring books.toscrape.com anywhere (the source
checks substring containment over the whole URL rather than comparing the
host component). -/
theorem scrape_rejects_nonmatching_url (d : ReqBody) (fetch : String → FetchOutcome)
    (fs : Fs) (ts bts el : String) (key : Nat) (ivs : Nat → Nat)
    (h1 : shortcutResolve (trimStr d.url) ≠ "")
    (h2 : strContains (resolveUrl d.url) "books.toscrape.com" = false) :
    scrape (some d) fetch fs ts bts el key ivs
      = (ScrapeResponse.unsupported "This demo only supports books.toscrape.com URLs"
          siteKeys, fs) := by
  simp only [resolveUrl] at h2
  simp only [scrape]
  rw [if_neg h1, if_pos h2]

/-- Witness for the amended C1 at a concrete foreign URL; the conclusion does
not depend on the fetch oracle. -/
theorem scrape_rejects_nonmatching_url_witness :
    shortcutResolve (trimStr "example.com") ≠ ""
    ∧ strContains (resolveUrl "example.com") "books.toscrape.com" = false
    ∧ scrape (some { url := "example.com", features := {} })
        (fun _ => FetchOutcome.err "never consulted") cleanFs "T" "B" "e" 0 (fun _ => 0)
      = (ScrapeResponse.unsupported "This demo only supports books.toscrape.com URLs"
          siteKeys, cleanFs) :=
  ⟨by decide, by decide,
   scrape_rejects_nonmatching_url { url := "example.com", features := {} }
     (fun _ => FetchOutcome.err "never consulted") cleanFs "T" "B" "e" 0 (fun _ => 0)
     (by decide) (by decide)⟩

/-- C6: a fetched document matching neither page shape yields an empty
extraction, and the handler answers with the no-data response, whose status
404 is machine-distinguishable from the 400 of a fetch failure. -/
theorem scrape_no_data_distinct_404 (d : ReqBody) (fetch : String → FetchOutcome)
    (fs : Fs) (ts bts el : String) (key : Nat) (ivs : Nat → Nat) (soup : Soup)
    (h1 : shortcutResolve (trimStr d.url) ≠ "")
    (h2 : strContains (resolveUrl d.url) "books.toscrape.com" = true)
    (hf : fetch (resolveUrl d.url) = FetchOutcome.ok soup)
    (ha : soup.articles = []) (hg : soup.productGallery = false) :
    scrape_books soup (computeBaseUrl (resolveUrl d.url)) = []
    ∧ scrape (some d) fetch fs ts bts el key ivs
        = (ScrapeResponse.notFound "No book data found on this page"
            "Try a books.toscrape.com category page", fs)
    ∧ statusCode (scrape (some d) fetch fs ts bts el key ivs).1 = 404
    ∧ (∀ m s, statusCode (ScrapeResponse.fetchError m s) = 400) := by
  have hsb : scrape_books soup (computeBaseUrl (resolveUrl d.url)) = [] := by
    simp [scrape_books, ha, hg]
  have hmain : scrape (some d) fetch fs ts bts el key ivs
      = (ScrapeResponse.notFound "No book data found on this page"
          "Try a books.toscrape.com category page", fs) := by
    rw [scrape_valid_request d fetch fs ts bts el key ivs h1 h2, hf]
    simp only [afterFetch]
    rw [hsb]
    simp
  exact ⟨hsb, hmain, by rw [hmain]; rfl, fun m s => rfl⟩

/-- Witness for C6 at a concrete request hitting a shapeless document. -/
theorem scrape_no_data_distinct_404_witness :
    scrape (some { url := "https://books.toscrape.com/index.html", features := {} })
        (fun _ => FetchOutcome.ok shapelessSoup) cleanFs "T" "B" "e" 0 (fun _ => 0)
      = (ScrapeResponse.notFound "No book data found on this page"
          "Try a books.toscrape.com category page", cleanFs)
    ∧ statusCode (ScrapeResponse.notFound "No book data found on this page"
        "Try a books.toscrape.com category page") = 404 :=
  ⟨(scrape_no_data_distinct_404
      { url := "https://books.toscrape.com/index.html", features := {} }
      (fun _ => FetchOutcome.ok shapelessSoup) cleanFs "T" "B" "e" 0 (fun _ => 0)
      shapelessSoup (by decide) (by decide) rfl rfl rfl).2.1, rfl⟩

/-! ## Persistence lemmas -/

/-- C9 core fact: the list `save_to_csv` hands back is always the input with
timestamp and source URL attached — the stamping happens before either write
is attempted, and is not rolled back on failure. -/
theorem save_to_csv_fst (data : List OutRecord) (su t bt : String) (g : Fs) :
    (save_to_csv data su t bt g).1 = data.map (stampRecord t su) := by
  simp only [save_to_csv]
  split
  · rfl
  · split <;> rfl

/-- A failing write in either file makes `save_to_csv` report failure instead
of raising. -/
theorem save_to_csv_false_of_fail (data : List OutRecord) (su t bt : String) (g : Fs)
    (h : g.mainWriteFails = true ∨ g.backupWriteFails = true) :
    (save_to_csv data su t bt g).2.1 = false := by
  simp only [save_to_csv]
  by_cases hm : g.mainWriteFails = true
  · rw [if_pos hm]
  · have hb : g.backupWriteFails = true := by
      rcases h with h | h
      · exact absurd h hm
      · exact h
    rw [if_neg hm, if_pos hb]

/-- When both writes succeed, `save_to_csv` reports success. -/
theorem save_to_csv_true (data : List OutRecord) (su t bt : String) (g : Fs)
    (hm : g.mainWriteFails = false) (hb : g.backupWriteFails = false) :
    (save_to_csv data su t bt g).2.1 = true := by
  simp only [save_to_csv]
  rw [if_neg (by simp [hm]), if_neg (by simp [hb])]

/-- The file-system state after a fully successful `save_to_csv`: the
cumulative store gains exactly the stamped batch (with a header-creating
write when the store did not exist), and the snapshot folder gains the
timestamped copy of the batch. -/
theorem save_to_csv_state_ok (data : List OutRecord) (su t bt : String) (g : Fs)
    (hm : g.mainWriteFails = false) (hb : g.backupWriteFails = false) :
    (save_to_csv data su t bt g).2.2
      = { mainExists := true
          mainRows := (if g.mainExists then g.mainRows else [])
            ++ data.map (stampRecord t su)
          backups := g.backups.filter (fun p => p.1 != backupFileName bt)
            ++ [(backupFileName bt, data.map (stampRecord t su))]
          mainWriteFails := false
          backupWriteFails := false } := by
  simp only [save_to_csv]
  rw [if_neg (by simp [hm]), if_neg (by simp [hb])]
  rcases g with ⟨me, mr, bk, mw, bw⟩
  simp only at hm hb
  subst hm
  subst hb
  rcases me with _ | _ <;> simp

/-! ## Post-processing map lemmas -/

/-- Mapping a function of the element only over an enumeration forgets the
indices. -/
theorem enumFrom_map_snd {α β : Type} (h : α → β) :
    ∀ (i : Nat) (l : List α), (l.enumFrom i).map (fun p => h p.2) = l.map h
  | _, [] => rfl
  | i, a :: l => by
    simp only [List.enumFrom_cons, List.map_cons]
    rw [enumFrom_map_snd h (i + 1) l]

/-- Titles seen through an enumerated encryption pass are unchanged by any
title-preserving pre-processing of the records. -/
theorem enum_encrypt_title_invariant (key : Nat) (ivs : Nat → Nat)
    (g : OutRecord → OutRecord) (hg : ∀ b, (g b).title = b.title) :
    ∀ (i : Nat) (l : List OutRecord),
      ((l.map g).enumFrom i).map (fun p => encrypt_data key (ivs (2 * p.1)) p.2.title)
        = (l.enumFrom i).map (fun p => encrypt_data key (ivs (2 * p.1)) p.2.title)
  | _, [] => rfl
  | i, a :: l => by
    simp only [List.map_cons, List.enumFrom_cons]
    rw [hg a, enum_encrypt_title_invariant key ivs g hg (i + 1) l]

/-- Prices seen through an enumerated encryption pass are unchanged by any
price-preserving pre-processing of the records. -/
theorem enum_encrypt_price_invariant (key : Nat) (ivs : Nat → Nat)
    (g : OutRecord → OutRecord) (hg : ∀ b, (g b).price = b.price) :
    ∀ (i : Nat) (l : List OutRecord),
      ((l.map g).enumFrom i).map (fun p => encrypt_data key (ivs (2 * p.1 + 1)) p.2.price)
        = (l.enumFrom i).map (fun p => encrypt_data key (ivs (2 * p.1 + 1)) p.2.price)
  | _, [] => rfl
  | i, a :: l => by
    simp only [List.map_cons, List.enumFrom_cons]
    rw [hg a, enum_encrypt_price_invariant key ivs g hg (i + 1) l]

/-- The titles of the records after the encryption loop are exactly the
ciphertexts of the incoming titles, in order, with the even IV draws. -/
theorem securityStep_map_title (key : Nat) (ivs : Nat → Nat) (l : List OutRecord) :
    (securityStep key ivs l).map OutRecord.title
      = l.enum.map (fun p => encrypt_data key (ivs (2 * p.1)) p.2.title) := by
  unfold securityStep
  rw [List.map_map]
  rfl

/-- The prices after the encryption loop are the ciphertexts of the incoming
prices with the odd IV draws. -/
theorem securityStep_map_price (key : Nat) (ivs : Nat → Nat) (l : List OutRecord) :
    (securityStep key ivs l).map OutRecord.price
      = l.enum.map (fun p => encrypt_data key (ivs (2 * p.1 + 1)) p.2.price) := by
  unfold securityStep
  rw [List.map_map]
  rfl

/-- The encryption loop touches only title and price: any projection that
ignores those two fields is unchanged. -/
theorem securityStep_map_meta (key : Nat) (ivs : Nat → Nat) (l : List OutRecord) :
    (securityStep key ivs l).map (fun r => (r.scrape_timestamp, r.source_url))
      = l.map (fun r => (r.scrape_timestamp, r.source_url)) := by
  unfold securityStep
  rw [List.map_map]
  exact enumFrom_map_snd (fun r => (r.scrape_timestamp, r.source_url)) 0 l

/-- The encryption loop leaves the AI analysis of every record in place. -/
theorem securityStep_map_ai (key : Nat) (ivs : Nat → Nat) (l : List OutRecord) :
    (securityStep key ivs l).map OutRecord.ai_analysis = l.map OutRecord.ai_analysis := by
  unfold securityStep
  rw [List.map_map]
  exact enumFrom_map_snd OutRecord.ai_analysis 0 l

/-- The AI loop sets the analysis of each record from its own title (with the
absent description contributing an empty string). -/
theorem aiStep_map_ai (l : List OutRecord) :
    (aiStep l).map OutRecord.ai_analysis
      = l.map (fun b => some (analyze_with_ai (b.title ++ " " ++ ""))) := by
  unfold aiStep
  rw [List.map_map]
  rfl

/-- The AI loop does not change timestamps or source URLs. -/
theorem aiStep_map_meta (l : List OutRecord) :
    (aiStep l).map (fun r => (r.scrape_timestamp, r.source_url))
      = l.map (fun r => (r.scrape_timestamp, r.source_url)) := by
  unfold aiStep
  rw [List.map_map]
  rfl

/-- Stamping sets timestamp and source URL to the same pair on every
record. -/
theorem stamp_map_meta (t su : String) (l : List OutRecord) :
    (l.map (stampRecord t su)).map (fun r => (r.scrape_timestamp, r.source_url))
      = l.map (fun _ => (some t, some su)) := by
  rw [List.map_map]
  rfl

/-- Stamping does not change the title. -/
theorem stamp_map_title (t su : String) (l : List OutRecord) :
    (l.map (stampRecord t su)).map OutRecord.title = l.map OutRecord.title := by
  rw [List.map_map]
  rfl

/-- Stamping does not change the price. -/
theorem stamp_map_price (t su : String) (l : List OutRecord) :
    (l.map (stampRecord t su)).map OutRecord.price = l.map OutRecord.price := by
  rw [List.map_map]
  rfl

/-- A list whose metadata projection is constant has that metadata on every
element. -/
theorem forall_meta_of_map_const {l bs : List OutRecord} {v : Option String × Option String}
    (h : l.map (fun r => (r.scrape_timestamp, r.source_url)) = bs.map (fun _ => v)) :
    ∀ r ∈ l, (r.scrape_timestamp, r.source_url) = v := by
  intro r hr
  have hm : (r.scrape_timestamp, r.source_url) ∈ bs.map (fun _ => v) := by
    rw [← h]
    exact List.mem_map_of_mem _ hr
  rcases List.mem_map.mp hm with ⟨b, _, hb⟩
  exact hb.symm

/-! ## Claims about the handler after a successful extraction -/

/-- C7: a persistence failure is reported as a `False` return from
`save_to_csv` (never an exception), and the request still succeeds: the
handler answers 200 with the extracted records, the failure surfacing only
as a false saved flag and a null filename in the envelope. -/
theorem save_failure_nonfatal (d : ReqBody) (fetch : String → FetchOutcome)
    (fs : Fs) (ts bts el : String) (key : Nat) (ivs : Nat → Nat) (soup : Soup)
    (h1 : shortcutResolve (trimStr d.url) ≠ "")
    (h2 : strContains (resolveUrl d.url) "books.toscrape.com" = true)
    (hf : fetch (resolveUrl d.url) = FetchOutcome.ok soup)
    (hb : (scrape_books soup (computeBaseUrl (resolveUrl d.url))).isEmpty = false)
    (hfail : fs.mainWriteFails = true ∨ fs.backupWriteFails = true)
    (hai : d.features.ai = false) (hsec : d.features.security = false) :
    (∀ (data : List OutRecord) (su : String),
        (save_to_csv data su ts bts fs).2.1 = false)
    ∧ (scrape (some d) fetch fs ts bts el key ivs).1
        = ScrapeResponse.ok
            { books := (scrape_books soup (computeBaseUrl (resolveUrl d.url))).map
                (stampRecord ts (resolveUrl d.url))
              source := resolveUrl d.url
              count := (scrape_books soup (computeBaseUrl (resolveUrl d.url))).length
              processing_time := el
              features := d.features
              saved_to_csv := false
              filename := none
              ai_enabled := false
              encryption_enabled := false }
    ∧ statusCode (scrape (some d) fetch fs ts bts el key ivs).1 = 200 := by
  have hsave : ∀ (data : List OutRecord) (su : String),
      (save_to_csv data su ts bts fs).2.1 = false :=
    fun data su => save_to_csv_false_of_fail data su ts bts fs hfail
  have hb' : ¬((scrape_books soup (computeBaseUrl (resolveUrl d.url))).isEmpty = true) := by
    rw [hb]; simp
  have hmain : (scrape (some d) fetch fs ts bts el key ivs).1
      = ScrapeResponse.ok
          { books := (scrape_books soup (computeBaseUrl (resolveUrl d.url))).map
              (stampRecord ts (resolveUrl d.url))
            source := resolveUrl d.url
            count := (scrape_books soup (computeBaseUrl (resolveUrl d.url))).length
            processing_time := el
            features := d.features
            saved_to_csv := false
            filename := none
            ai_enabled := false
            encryption_enabled := false } := by
    rw [scrape_valid_request d fetch fs ts bts el key ivs h1 h2, hf]
    simp only [afterFetch]
    rw [if_neg hb']
    simp only [hai, hsec, Bool.false_eq_true, if_false, save_to_csv_fst]
    rw [hsave]
    simp
  exact ⟨hsave, hmain, by rw [hmain]; rfl⟩

/-- Witness for C7: a concrete scrape against a broken file system still
answers 200, and the concrete save call reports failure. -/
theorem save_failure_nonfatal_witness :
    (save_to_csv [] "u" "T" "B" brokenFs).2.1 = false
    ∧ statusCode (scrape
        (some { url := "https://books.toscrape.com/catalogue/page-1.html", features := {} })
        (fun _ => FetchOutcome.ok catalogueSoup) brokenFs "T" "B" "e" 0 (fun _ => 0)).1
      = 200 :=
  ⟨(save_failure_nonfatal
      { url := "https://books.toscrape.com/catalogue/page-1.html", features := {} }
      (fun _ => FetchOutcome.ok catalogueSoup) brokenFs "T" "B" "e" 0 (fun _ => 0)
      catalogueSoup (by decide) (by decide) rfl (by decide) (Or.inl rfl) rfl rfl).1 [] "u",
   (save_failure_nonfatal
      { url := "https://books.toscrape.com/catalogue/page-1.html", features := {} }
      (fun _ => FetchOutcome.ok catalogueSoup) brokenFs "T" "B" "e" 0 (fun _ => 0)
      catalogueSoup (by decide) (by decide) rfl (by decide) (Or.inl rfl) rfl rfl).2.2⟩

/-- C9: `save_to_csv` stamps every record with timestamp and source URL in
place before attempting any write, so even when persistence fails the records
the handler returns still carry both fields — the mutation is not rolled
back. -/
theorem save_to_csv_stamps_before_write (d : ReqBody) (fetch : String → FetchOutcome)
    (fs : Fs) (ts bts el : String) (key : Nat) (ivs : Nat → Nat) (soup : Soup)
    (h1 : shortcutResolve (trimStr d.url) ≠ "")
    (h2 : strContains (resolveUrl d.url) "books.toscrape.com" = true)
    (hf : fetch (resolveUrl d.url) = FetchOutcome.ok soup)
    (hb : (scrape_books soup (computeBaseUrl (resolveUrl d.url))).isEmpty = false)
    (hfail : fs.mainWriteFails = true) :
    (∀ (data : List OutRecord) (su t bt : String) (g : Fs),
        (save_to_csv data su t bt g).1 = data.map (stampRecord t su))
    ∧ respSaved (scrape (some d) fetch fs ts bts el key ivs).1 = some false
    ∧ (∀ r ∈ respBooks (scrape (some d) fetch fs ts bts el key ivs).1,
        r.scrape_timestamp = some ts ∧ r.source_url = some (resolveUrl d.url)) := by
  have hb' : ¬((scrape_books soup (computeBaseUrl (resolveUrl d.url))).isEmpty = true) := by
    rw [hb]; simp
  refine ⟨fun data su t bt g => save_to_csv_fst data su t bt g, ?_, ?_⟩
  · rw [scrape_valid_request d fetch fs ts bts el key ivs h1 h2, hf]
    simp only [afterFetch]
    rw [if_neg hb']
    simp only [respSaved]
    rw [save_to_csv_false_of_fail _ _ _ _ _ (Or.inl hfail)]
  · rw [scrape_valid_request d fetch fs ts bts el key ivs h1 h2, hf]
    simp only [afterFetch]
    rw [if_neg hb']
    simp only [respBooks, save_to_csv_fst]
    intro r hr
    rcases hsec : d.features.security with _ | _ <;> rcases hai : d.features.ai with _ | _ <;>
      rw [hsec, hai] at hr <;> simp only [Bool.false_eq_true, if_false, if_pos rfl] at hr
    · have h := forall_meta_of_map_const
        (stamp_map_meta ts (resolveUrl d.url)
          (scrape_books soup (computeBaseUrl (resolveUrl d.url)))) r hr
      exact ⟨congrArg Prod.fst h, congrArg Prod.snd h⟩
    · have hmeta := aiStep_map_meta
        ((scrape_books soup (computeBaseUrl (resolveUrl d.url))).map
          (stampRecord ts (resolveUrl d.url)))
      rw [stamp_map_meta] at hmeta
      have h := forall_meta_of_map_const hmeta r hr
      exact ⟨congrArg Prod.fst h, congrArg Prod.snd h⟩
    · have hmeta := securityStep_map_meta key ivs
        ((scrape_books soup (computeBaseUrl (resolveUrl d.url))).map
          (stampRecord ts (resolveUrl d.url)))
      rw [stamp_map_meta] at hmeta
      have h := forall_meta_of_map_const hmeta r hr
      exact ⟨congrArg Prod.fst h, congrArg Prod.snd h⟩
    · have hmeta := securityStep_map_meta key ivs
        (aiStep ((scrape_books soup (computeBaseUrl (resolveUrl d.url))).map
          (stampRecord ts (resolveUrl d.url))))
      rw [aiStep_map_meta, stamp_map_meta] at hmeta
      have h := forall_meta_of_map_const hmeta r hr
      exact ⟨congrArg Prod.fst h, congrArg Prod.snd h⟩

/-- Witness for C9: on a concrete failing scrape the save reports failure
yet the concrete returned record still carries its timestamp and source
URL. -/
theorem save_to_csv_stamps_before_write_witness :
    (save_to_csv [lightRecord] "u" "T" "B" cleanFs).1
        = [lightRecord].map (stampRecord "T" "u")
    ∧ respSaved (scrape (some { url := "WBB", features := {} })
        (fun _ => FetchOutcome.ok catalogueSoup) brokenFs "T" "B" "e" 0 (fun _ => 0)).1
      = some false
    ∧ (stampRecord "T" (resolveUrl "WBB") lightRecord).scrape_timestamp = some "T"
    ∧ (stampRecord "T" (resolveUrl "WBB") lightRecord).source_url
        = some (resolveUrl "WBB") :=
  ⟨(save_to_csv_stamps_before_write { url := "WBB", features := {} }
      (fun _ => FetchOutcome.ok catalogueSoup) brokenFs "T" "B" "e" 0 (fun _ => 0)
      catalogueSoup (by decide) (by decide) rfl (by decide) rfl).1 [lightRecord] "u" "T" "B" cleanFs,
   (save_to_csv_stamps_before_write { url := "WBB", features := {} }
      (fun _ => FetchOutcome.ok catalogueSoup) brokenFs "T" "B" "e" 0 (fun _ => 0)
      catalogueSoup (by decide) (by decide) rfl (by decide) rfl).2.1,
   (save_to_csv_stamps_before_write { url := "WBB", features := {} }
      (fun _ => FetchOutcome.ok catalogueSoup) brokenFs "T" "B" "e" 0 (fun _ => 0)
      catalogueSoup (by decide) (by decide) rfl (by decide) rfl).2.2
      (stampRecord "T" (resolveUrl "WBB") lightRecord) (by decide)⟩

/-- C8: with encryption enabled and persistence healthy, the cumulative
store and the snapshot receive the plaintext stamped records (titles and
prices exactly as extracted), while the response books carry the
ciphertexts — the writes happen before the encryption loop mutates the
records. -/
theorem security_frame_csv_plaintext (d : ReqBody) (fetch : String → FetchOutcome)
    (fs : Fs) (ts bts el : String) (key : Nat) (ivs : Nat → Nat) (soup : Soup)
    (h1 : shortcutResolve (trimStr d.url) ≠ "")
    (h2 : strContains (resolveUrl d.url) "books.toscrape.com" = true)
    (hf : fetch (resolveUrl d.url) = FetchOutcome.ok soup)
    (hb : (scrape_books soup (computeBaseUrl (resolveUrl d.url))).isEmpty = false)
    (hsec : d.features.security = true)
    (hm : fs.mainWriteFails = false) (hbk : fs.backupWriteFails = false) :
    (scrape (some d) fetch fs ts bts el key ivs).2.mainRows
        = (if fs.mainExists then fs.mainRows else [])
          ++ (scrape_books soup (computeBaseUrl (resolveUrl d.url))).map
              (stampRecord ts (resolveUrl d.url))
    ∧ (scrape (some d) fetch fs ts bts el key ivs).2.backups.getLast?
        = some (backupFileName bts,
            (scrape_books soup (computeBaseUrl (resolveUrl d.url))).map
              (stampRecord ts (resolveUrl d.url)))
    ∧ ((scrape_books soup (computeBaseUrl (resolveUrl d.url))).map
          (stampRecord ts (resolveUrl d.url))).map OutRecord.title
        = (scrape_books soup (computeBaseUrl (resolveUrl d.url))).map OutRecord.title
    ∧ ((scrape_books soup (computeBaseUrl (resolveUrl d.url))).map
          (stampRecord ts (resolveUrl d.url))).map OutRecord.price
        = (scrape_books soup (computeBaseUrl (resolveUrl d.url))).map OutRecord.price
    ∧ (respBooks (scrape (some d) fetch fs ts bts el key ivs).1).map OutRecord.title
        = (scrape_books soup (computeBaseUrl (resolveUrl d.url))).enum.map
            (fun p => encrypt_data key (ivs (2 * p.1)) p.2.title)
    ∧ (respBooks (scrape (some d) fetch fs ts bts el key ivs).1).map OutRecord.price
        = (scrape_books soup (computeBaseUrl (resolveUrl d.url))).enum.map
            (fun p => encrypt_data key (ivs (2 * p.1 + 1)) p.2.price) := by
  have hb' : ¬((scrape_books soup (computeBaseUrl (resolveUrl d.url))).isEmpty = true) := by
    rw [hb]; simp
  have hstate : (scrape (some d) fetch fs ts bts el key ivs).2
      = (save_to_csv (scrape_books soup (computeBaseUrl (resolveUrl d.url)))
          (resolveUrl d.url) ts bts fs).2.2 := by
    rw [scrape_valid_request d fetch fs ts bts el key ivs h1 h2, hf]
    simp only [afterFetch]
    rw [if_neg hb']
  refine ⟨?_, ?_, stamp_map_title _ _ _, stamp_map_price _ _ _, ?_, ?_⟩
  · rw [hstate, save_to_csv_state_ok _ _ _ _ _ hm hbk]
  · rw [hstate, save_to_csv_state_ok _ _ _ _ _ hm hbk]
    simp only []
    rw [List.getLast?_concat]
  · rw [scrape_valid_request d fetch fs ts bts el key ivs h1 h2, hf]
    simp only [afterFetch]
    rw [if_neg hb']
    simp only [respBooks, save_to_csv_fst, hsec, eq_self_iff_true, if_true]
    rcases hai : d.features.ai with _ | _ <;>
      simp only [Bool.false_eq_true, if_false, eq_self_iff_true, if_true]
    · rw [securityStep_map_title]
      simp only [List.enum]
      rw [enum_encrypt_title_invariant key ivs (stampRecord ts (resolveUrl d.url))
        (fun b => rfl) 0]
    · rw [securityStep_map_title]
      simp only [List.enum, aiStep]
      rw [enum_encrypt_title_invariant key ivs
        (fun b => { b with ai_analysis := some (analyze_with_ai (b.title ++ " " ++ "")) })
        (fun b => rfl) 0]
      rw [enum_encrypt_title_invariant key ivs (stampRecord ts (resolveUrl d.url))
        (fun b => rfl) 0]
  · rw [scrape_valid_request d fetch fs ts bts el key ivs h1 h2, hf]
    simp only [afterFetch]
    rw [if_neg hb']
    simp only [respBooks, save_to_csv_fst, hsec, eq_self_iff_true, if_true]
    rcases hai : d.features.ai with _ | _ <;>
      simp only [Bool.false_eq_true, if_false, eq_self_iff_true, if_true]
    · rw [securityStep_map_price]
      simp only [List.enum]
      rw [enum_encrypt_price_invariant key ivs (stampRecord ts (resolveUrl d.url))
        (fun b => rfl) 0]
    · rw [securityStep_map_price]
      simp only [List.enum, aiStep]
      rw [enum_encrypt_price_invariant key ivs
        (fun b => { b with ai_analysis := some (analyze_with_ai (b.title ++ " " ++ "")) })
        (fun b => rfl) 0]
      rw [enum_encrypt_price_invariant key ivs (stampRecord ts (resolveUrl d.url))
        (fun b => rfl) 0]

/-- Witness for C8 at a concrete encrypted scrape: the cumulative store and
snapshot receive the plaintext stamped batch. -/
theorem security_frame_csv_plaintext_witness :
    (scrape (some { url := "Design", features := { security := true } })
        (fun _ => FetchOutcome.ok catalogueSoup) cleanFs "T" "B" "e" 7 (fun n => n)).2.mainRows
      = (if cleanFs.mainExists then cleanFs.mainRows else [])
        ++ (scrape_books catalogueSoup (computeBaseUrl (resolveUrl "Design"))).map
            (stampRecord "T" (resolveUrl "Design"))
    ∧ (scrape (some { url := "Design", features := { security := true } })
        (fun _ => FetchOutcome.ok catalogueSoup) cleanFs "T" "B" "e" 7 (fun n => n)).2.backups.getLast?
      = some (backupFileName "B",
          (scrape_books catalogueSoup (computeBaseUrl (resolveUrl "Design"))).map
            (stampRecord "T" (resolveUrl "Design"))) :=
  ⟨(security_frame_csv_plaintext { url := "Design", features := { security := true } }
      (fun _ => FetchOutcome.ok catalogueSoup) cleanFs "T" "B" "e" 7 (fun n => n)
      catalogueSoup (by decide) (by decide) rfl (by decide) rfl rfl rfl).1,
   (security_frame_csv_plaintext { url := "Design", features := { security := true } }
      (fun _ => FetchOutcome.ok catalogueSoup) cleanFs "T" "B" "e" 7 (fun n => n)
      catalogueSoup (by decide) (by decide) rfl (by decide) rfl rfl rfl).2.1⟩

/-- C10: with both the AI and the security feature enabled, the AI loop runs
before the encryption loop, so every response record carries an analysis of
its original plaintext title (concatenated through a space with the absent
description), not of the ciphertext. -/
theorem ai_runs_before_encryption (d : ReqBody) (fetch : String → FetchOutcome)
    (fs : Fs) (ts bts el : String) (key : Nat) (ivs : Nat → Nat) (soup : Soup)
    (h1 : shortcutResolve (trimStr d.url) ≠ "")
    (h2 : strContains (resolveUrl d.url) "books.toscrape.com" = true)
    (hf : fetch (resolveUrl d.url) = FetchOutcome.ok soup)
    (hb : (scrape_books soup (computeBaseUrl (resolveUrl d.url))).isEmpty = false)
    (hai : d.features.ai = true) (hsec : d.features.security = true) :
    (respBooks (scrape (some d) fetch fs ts bts el key ivs).1).map OutRecord.ai_analysis
      = (scrape_books soup (computeBaseUrl (resolveUrl d.url))).map
          (fun b => some (analyze_with_ai (b.title ++ " " ++ ""))) := by
  have hb' : ¬((scrape_books soup (computeBaseUrl (resolveUrl d.url))).isEmpty = true) := by
    rw [hb]; simp
  rw [scrape_valid_request d fetch fs ts bts el key ivs h1 h2, hf]
  simp only [afterFetch]
  rw [if_neg hb']
  simp only [respBooks, save_to_csv_fst, hsec, hai, eq_self_iff_true, if_true]
  rw [securityStep_map_ai, aiStep_map_ai, List.map_map]
  rfl

/-- Witness for C10: the concrete encrypted-and-analyzed scrape carries the
analysis of the plaintext title. -/
theorem ai_runs_before_encryption_witness :
    (respBooks (scrape
        (some { url := "Design", features := { ai := true, security := true } })
        (fun _ => FetchOutcome.ok catalogueSoup) cleanFs "T" "B" "e" 7 (fun n => n)).1).map
        OutRecord.ai_analysis
      = [some (analyze_with_ai ("A Light in the Attic" ++ " " ++ ""))] := by
  rw [ai_runs_before_encryption
    { url := "Design", features := { ai := true, security := true } }
    (fun _ => FetchOutcome.ok catalogueSoup) cleanFs "T" "B" "e" 7 (fun n => n)
    catalogueSoup (by decide) (by decide) rfl (by decide) rfl rfl]
  decide
